import Mathlib

/-!
Shallow embedding of the multi-provider geocoding fallback service of
Market-Detective (src/geocoding_service.py), together with theorems
settling the frozen claims about it.

Modelling conventions:
- Coordinates are modelled as integers (`Coord`); the claims under study
  are about control flow, registry construction, coordinate ordering and
  absence/presence, never about floating-point arithmetic.
- A provider adapter either raises an exception or returns a pair of
  optional coordinates; this is the `AdapterOutcome` type. The network
  is abstracted away: adapters are modelled as functions from a
  provider-specific response value (the parsed JSON body plus the HTTP
  status code) to an outcome, and the fallback loop is parametrised by
  an `Adapters` record giving, for each provider, the outcome of
  invoking its adapter on the query string.
- Observable side effects (log calls, the sleep in the Nominatim
  adapter, the HTTP request with its timeout) are recorded in explicit
  trace lists (`LogEntry`, `Effect`).
-/

namespace MarketDetective

/-- Coordinate values; the python code uses floats, but every claim under
study is independent of the numeric representation. -/
abbrev Coord := Int

/-- Outcome of invoking one provider adapter body on a query: it either
raises an exception (with a message) or returns a pair of optional
coordinates, exactly as each `_geocode_<provider>` method does. -/
inductive AdapterOutcome where
  | raises (msg : String)
  | returns (lat lon : Option Coord)
deriving DecidableEq

/-- True when the outcome is a populated coordinate pair, the condition
`lat is not None and lon is not None` tested by the fallback loop. -/
def AdapterOutcome.isSuccess : AdapterOutcome → Bool
  | .returns (some _) (some _) => true
  | _ => false

/-- The log calls performed by GeocodingService, one constructor per
logging statement in geocode and in the dispatcher. -/
inductive LogEntry where
  | warnEmptyAddress
  | warnProviderFailed (provider : String)
  | infoSuccess (provider address : String)
  | errorAllFailed (address : String)
  | errorUnknownProvider (provider : String)
deriving DecidableEq

/-- Side effects performed by adapter bodies: the sleep in the Nominatim
adapter, an HTTP GET with its bound timeout, and the geopy Nominatim
lookup with its timeout. -/
inductive Effect where
  | sleep (seconds : Nat)
  | httpGet (url : String) (timeout : Nat)
  | nominatimLookup (timeout : Nat)
deriving DecidableEq

/-- Python truthiness of an environment variable: `os.getenv` yields
None when the variable is unset, and an empty string is falsy. -/
def truthy : Option String → Bool
  | none => false
  | some s => !s.isEmpty

/-- The four optional credentials read from the environment at
construction time. -/
structure Env where
  locationiq_key : Option String
  opencage_key : Option String
  geoapify_key : Option String
  positionstack_key : Option String

/-- Registry construction from GeocodingService.__init__: append each
credentialed provider in the fixed order locationiq, opencage, geoapify,
positionstack, then append nominatim unconditionally. -/
def buildProviders (env : Env) : List String :=
  (if truthy env.locationiq_key then ["locationiq"] else []) ++
  (if truthy env.opencage_key then ["opencage"] else []) ++
  (if truthy env.geoapify_key then ["geoapify"] else []) ++
  (if truthy env.positionstack_key then ["positionstack"] else []) ++
  ["nominatim"]

/-- Whether a provider name has a credential in the environment, used to
restate registry construction as a filter over the canonical order. -/
def credentialed (env : Env) (p : String) : Bool :=
  if p = "locationiq" then truthy env.locationiq_key
  else if p = "opencage" then truthy env.opencage_key
  else if p = "geoapify" then truthy env.geoapify_key
  else if p = "positionstack" then truthy env.positionstack_key
  else false

/-- The canonical priority order of the four credentialed providers. -/
def canonicalOrder : List String :=
  ["locationiq", "opencage", "geoapify", "positionstack"]

/-- Provider names handled by the if/elif chain of
_geocode_with_provider. -/
def isKnownProvider (p : String) : Bool :=
  p = "locationiq" || p = "opencage" || p = "geoapify" ||
  p = "positionstack" || p = "nominatim"

/- Per-provider response models: each structure carries the HTTP status
code and the fields of the parsed JSON body that the adapter reads. -/

structure LocationIQItem where
  lat : Coord
  lon : Coord
deriving DecidableEq

structure LocationIQResponse where
  status_code : Nat
  body : List LocationIQItem
deriving DecidableEq

structure OpenCageGeometry where
  lat : Coord
  lng : Coord
deriving DecidableEq

structure OpenCageResponse where
  status_code : Nat
  results : List OpenCageGeometry
deriving DecidableEq

/-- Geoapify response: each feature is reduced to its
geometry.coordinates array. -/
structure GeoapifyResponse where
  status_code : Nat
  features : List (List Coord)
deriving DecidableEq

structure PositionstackItem where
  latitude : Coord
  longitude : Coord
deriving DecidableEq

structure PositionstackResponse where
  status_code : Nat
  body : List PositionstackItem
deriving DecidableEq

/-- What the geopy Nominatim lookup can do: return a location object,
return no result, or raise one of the two geopy exception classes the
adapter catches. -/
inductive NominatimReply where
  | location (latitude longitude : Coord)
  | noResult
  | timedOut
  | serviceError
deriving DecidableEq

/-- requests.Response.raise_for_status raises for every 4xx and 5xx
status code. -/
def raiseForStatusFails (status : Nat) : Bool :=
  decide (400 ≤ status) && decide (status < 600)

/-- Adapter _geocode_locationiq: one GET with timeout 10; 429 raises a
rate-limit exception before the generic status check; error statuses
raise; an empty result array yields an absent pair; otherwise the first
element supplies lat and lon. -/
def geocode_locationiq (resp : LocationIQResponse) :
    List Effect × AdapterOutcome :=
  ([Effect.httpGet "https://us1.locationiq.com/v1/search" 10],
   if resp.status_code = 429 then .raises "Rate limit exceeded"
   else if raiseForStatusFails resp.status_code then .raises "HTTPError"
   else match resp.body with
     | [] => .returns none none
     | item :: _ => .returns (some item.lat) (some item.lon))

/-- Adapter _geocode_opencage: same status handling; the first result
supplies geometry.lat and geometry.lng. -/
def geocode_opencage (resp : OpenCageResponse) :
    List Effect × AdapterOutcome :=
  ([Effect.httpGet "https://api.opencagedata.com/geocode/v1/json" 10],
   if resp.status_code = 429 then .raises "Rate limit exceeded"
   else if raiseForStatusFails resp.status_code then .raises "HTTPError"
   else match resp.results with
     | [] => .returns none none
     | g :: _ => .returns (some g.lat) (some g.lng))

/-- Adapter _geocode_geoapify: same status handling; the coordinates
array of the first feature is read reversed, index 1 as latitude and
index 0 as longitude; a missing index raises (python IndexError). -/
def geocode_geoapify (resp : GeoapifyResponse) :
    List Effect × AdapterOutcome :=
  ([Effect.httpGet "https://api.geoapify.com/v1/geocode/search" 10],
   if resp.status_code = 429 then .raises "Rate limit exceeded"
   else if raiseForStatusFails resp.status_code then .raises "HTTPError"
   else match resp.features with
     | [] => .returns none none
     | coords :: _ =>
       match coords.get? 1, coords.get? 0 with
       | some c1, some c0 => .returns (some c1) (some c0)
       | _, _ => .raises "IndexError")

/-- Adapter _geocode_positionstack: same status handling; the first data
element supplies latitude and longitude. -/
def geocode_positionstack (resp : PositionstackResponse) :
    List Effect × AdapterOutcome :=
  ([Effect.httpGet "http://api.positionstack.com/v1/forward" 10],
   if resp.status_code = 429 then .raises "Rate limit exceeded"
   else if raiseForStatusFails resp.status_code then .raises "HTTPError"
   else match resp.body with
     | [] => .returns none none
     | item :: _ => .returns (some item.latitude) (some item.longitude))

/-- Adapter _geocode_nominatim: sleeps 1 second, then performs the geopy
lookup with timeout 10; a location yields both coordinates, no location
yields an absent pair, and the two caught geopy exceptions are re-raised
wrapped. -/
def geocode_nominatim (reply : NominatimReply) :
    List Effect × AdapterOutcome :=
  ([Effect.sleep 1, Effect.nominatimLookup 10],
   match reply with
   | .location la lo => .returns (some la) (some lo)
   | .noResult => .returns none none
   | .timedOut => .raises "Nominatim error"
   | .serviceError => .raises "Nominatim error")

/-- Abstraction over the five adapter bodies as seen from the fallback
loop: for each provider, the outcome of invoking its adapter on a query
string. Instantiating each field with the concrete adapter applied to a
network response recovers the concrete service. -/
structure Adapters where
  locationiq : String → AdapterOutcome
  opencage : String → AdapterOutcome
  geoapify : String → AdapterOutcome
  positionstack : String → AdapterOutcome
  nominatim : String → AdapterOutcome

/-- Result of one call to the internal dispatcher
_geocode_with_provider: which adapters were invoked, the outcome, and
the log entries the dispatcher itself emitted. -/
structure DispatchResult where
  invoked : List String
  outcome : AdapterOutcome
  log : List LogEntry
deriving DecidableEq

/-- The dispatcher _geocode_with_provider: the if/elif chain over the
five known names; an unknown name logs an error and returns an absent
pair without invoking any adapter. -/
def geocodeWithProvider (A : Adapters) (provider query : String) :
    DispatchResult :=
  if provider = "locationiq" then ⟨[provider], A.locationiq query, []⟩
  else if provider = "opencage" then ⟨[provider], A.opencage query, []⟩
  else if provider = "geoapify" then ⟨[provider], A.geoapify query, []⟩
  else if provider = "positionstack" then
    ⟨[provider], A.positionstack query, []⟩
  else if provider = "nominatim" then ⟨[provider], A.nominatim query, []⟩
  else ⟨[], .returns none none, [.errorUnknownProvider provider]⟩

/-- Observable result of a geocode call: the returned pair, the
adapters invoked in order, and the log trace. -/
structure GeocodeResult where
  res : Option Coord × Option Coord
  invoked : List String
  log : List LogEntry
deriving DecidableEq

/-- The fallback loop of geocode over the provider registry: dispatch to
each provider in order; a populated pair returns immediately with a
success log; an exception logs a warning and continues; any other
return value continues silently; an exhausted registry logs an error
and yields the absent pair. -/
def geocodeLoop (A : Adapters) (address query : String) :
    List String → GeocodeResult
  | [] => ⟨(none, none), [], [.errorAllFailed address]⟩
  | p :: rest =>
    let d := geocodeWithProvider A p query
    match d.outcome with
    | .raises _ =>
      let r := geocodeLoop A address query rest
      ⟨r.res, d.invoked ++ r.invoked,
       d.log ++ LogEntry.warnProviderFailed p :: r.log⟩
    | .returns lat lon =>
      match lat, lon with
      | some la, some lo =>
        ⟨(some la, some lo), d.invoked,
         d.log ++ [.infoSuccess p address]⟩
      | _, _ =>
        let r := geocodeLoop A address query rest
        ⟨r.res, d.invoked ++ r.invoked, d.log ++ r.log⟩

/-- The blank-input test of geocode:
`not address or address.strip() == ""`. A stripped string is empty
exactly when every character of the original is whitespace, so the
test is modelled directly on the character list. -/
def isBlankAddress (address : String) : Bool :=
  address = "" || address.data.all Char.isWhitespace

/-- GeocodingService.geocode: blank input short-circuits with a warning
and an absent pair; otherwise the address is suffixed with the country
qualifier and the fallback loop runs over the constructed registry. -/
def geocode (env : Env) (A : Adapters) (address : String) :
    GeocodeResult :=
  if isBlankAddress address then ⟨(none, none), [], [.warnEmptyAddress]⟩
  else geocodeLoop A address (address ++ ", Nigeria") (buildProviders env)

/- Helper lemmas shared by several claim proofs. -/

/-- An unknown provider name falls through the whole if/elif chain. -/
theorem geocodeWithProvider_not_known (A : Adapters) (p q : String)
    (h : isKnownProvider p = false) :
    geocodeWithProvider A p q =
      ⟨[], .returns none none, [.errorUnknownProvider p]⟩ := by
  simp only [isKnownProvider, Bool.or_eq_false_iff, decide_eq_false_iff_not] at h
  obtain ⟨⟨⟨⟨h1, h2⟩, h3⟩, h4⟩, h5⟩ := h
  simp [geocodeWithProvider, h1, h2, h3, h4, h5]

/-- A known provider name hits its branch: the adapter is invoked and
the dispatcher emits no log entry. -/
theorem geocodeWithProvider_known (A : Adapters) (p q : String)
    (h : isKnownProvider p = true) :
    (geocodeWithProvider A p q).invoked = [p] ∧
    (geocodeWithProvider A p q).log = [] := by
  simp only [isKnownProvider, Bool.or_eq_true, decide_eq_true_eq] at h
  rcases h with ((((h | h) | h) | h) | h) <;> subst h <;> exact ⟨rfl, rfl⟩

/-- Only a known provider name can produce a successful outcome: the
unknown branch returns the absent pair. -/
theorem isKnownProvider_of_success (A : Adapters) (p q : String)
    (h : (geocodeWithProvider A p q).outcome.isSuccess = true) :
    isKnownProvider p = true := by
  by_contra hk
  rw [geocodeWithProvider_not_known A p q (by simpa using hk)] at h
  simp [AdapterOutcome.isSuccess] at h

theorem geocodeLoop_nil (A : Adapters) (address query : String) :
    geocodeLoop A address query [] =
      ⟨(none, none), [], [.errorAllFailed address]⟩ := rfl

/-- Loop step when the dispatched adapter raises: log a warning and
continue with the rest of the registry. -/
theorem geocodeLoop_cons_raises (A : Adapters) (address query p : String)
    (rest : List String) (m : String)
    (h : (geocodeWithProvider A p query).outcome = .raises m) :
    geocodeLoop A address query (p :: rest) =
      ⟨(geocodeLoop A address query rest).res,
       (geocodeWithProvider A p query).invoked ++
         (geocodeLoop A address query rest).invoked,
       (geocodeWithProvider A p query).log ++
         LogEntry.warnProviderFailed p ::
           (geocodeLoop A address query rest).log⟩ := by
  simp only [geocodeLoop]
  rw [h]

/-- Loop step when the dispatched adapter returns a populated pair:
return it immediately with the success log entry. -/
theorem geocodeLoop_cons_success (A : Adapters) (address query p : String)
    (rest : List String) (la lo : Coord)
    (h : (geocodeWithProvider A p query).outcome =
      .returns (some la) (some lo)) :
    geocodeLoop A address query (p :: rest) =
      ⟨(some la, some lo), (geocodeWithProvider A p query).invoked,
       (geocodeWithProvider A p query).log ++
         [.infoSuccess p address]⟩ := by
  simp only [geocodeLoop]
  rw [h]

/-- Loop step when the dispatched adapter returns a pair that is not
fully populated: continue silently with the rest of the registry. -/
theorem geocodeLoop_cons_continue (A : Adapters) (address query p : String)
    (rest : List String) (lat lon : Option Coord)
    (h : (geocodeWithProvider A p query).outcome = .returns lat lon)
    (hns : (AdapterOutcome.returns lat lon).isSuccess = false) :
    geocodeLoop A address query (p :: rest) =
      ⟨(geocodeLoop A address query rest).res,
       (geocodeWithProvider A p query).invoked ++
         (geocodeLoop A address query rest).invoked,
       (geocodeWithProvider A p query).log ++
         (geocodeLoop A address query rest).log⟩ := by
  simp only [geocodeLoop]
  rw [h]
  cases lat <;> cases lon <;> simp_all [AdapterOutcome.isSuccess]

/-- Every name in a constructed registry is one of the five known
provider names. -/
theorem mem_buildProviders_isKnown (env : Env) (p : String)
    (h : p ∈ buildProviders env) : isKnownProvider p = true := by
  simp only [buildProviders, List.mem_append, List.mem_singleton] at h
  rcases h with ((((h | h) | h) | h) | h)
  all_goals first
    | (subst h; rfl)
    | (split at h <;>
        simp only [List.mem_singleton, List.not_mem_nil] at h <;>
        (subst h; rfl))

/-- The loop result never carries a half-populated pair: the first
component is absent exactly when the second is. -/
theorem geocodeLoop_no_partial (A : Adapters) (address query : String)
    (ps : List String) :
    ((geocodeLoop A address query ps).res.1 = none ↔
      (geocodeLoop A address query ps).res.2 = none) := by
  induction ps with
  | nil => simp [geocodeLoop_nil]
  | cons p rest ih =>
    cases h : (geocodeWithProvider A p query).outcome with
    | raises m => rw [geocodeLoop_cons_raises A address query p rest m h]; exact ih
    | returns lat lon =>
      cases hs : (AdapterOutcome.returns lat lon).isSuccess with
      | true =>
        cases lat with
        | none => simp [AdapterOutcome.isSuccess] at hs
        | some la =>
          cases lon with
          | none => simp [AdapterOutcome.isSuccess] at hs
          | some lo =>
            rw [geocodeLoop_cons_success A address query p rest la lo h]
            simp
      | false =>
        rw [geocodeLoop_cons_continue A address query p rest lat lon h hs]
        exact ih

/-- If no provider in the list yields a populated pair, the loop result
is the absent pair. -/
theorem geocodeLoop_all_fail (A : Adapters) (address query : String)
    (ps : List String)
    (h : ∀ p ∈ ps,
      (geocodeWithProvider A p query).outcome.isSuccess = false) :
    (geocodeLoop A address query ps).res = (none, none) := by
  induction ps with
  | nil => simp [geocodeLoop_nil]
  | cons p rest ih =>
    have hp := h p (List.mem_cons_self p rest)
    have hrest : ∀ q ∈ rest,
        (geocodeWithProvider A q query).outcome.isSuccess = false :=
      fun q hq => h q (List.mem_cons_of_mem p hq)
    cases ho : (geocodeWithProvider A p query).outcome with
    | raises m =>
      rw [geocodeLoop_cons_raises A address query p rest m ho]
      exact ih hrest
    | returns lat lon =>
      rw [geocodeLoop_cons_continue A address query p rest lat lon ho
        (by rw [ho] at hp; exact hp)]
      exact ih hrest

/- Concrete fixtures used by witnesses and by the counterexample. -/

/-- Environment with no credential set. -/
def envNone : Env := ⟨none, none, none, none⟩

/-- Environment with all four credentials set. -/
def envAll : Env := ⟨some "k1", some "k2", some "k3", some "k4"⟩

/-- Adapters that all raise. -/
def raisingAdapters : Adapters :=
  ⟨fun _ => .raises "boom", fun _ => .raises "boom",
   fun _ => .raises "boom", fun _ => .raises "boom",
   fun _ => .raises "boom"⟩

/-- Adapters that all return the absent pair without raising. -/
def absentAdapters : Adapters :=
  ⟨fun _ => .returns none none, fun _ => .returns none none,
   fun _ => .returns none none, fun _ => .returns none none,
   fun _ => .returns none none⟩

/-- Adapters where locationiq raises and opencage resolves, used to
exercise the fallback order. -/
def fallbackAdapters : Adapters :=
  ⟨fun _ => .raises "boom", fun _ => .returns (some 7) (some 4),
   fun _ => .returns (some 1) (some 2), fun _ => .returns (some 1) (some 2),
   fun _ => .returns (some 1) (some 2)⟩

/-- Claim C3: for every address that is empty or consists only of
whitespace, geocode returns the absent pair immediately, invoking no
provider adapter, with only the empty-address warning logged. -/
theorem geocode_blank_short_circuit (env : Env) (A : Adapters)
    (address : String) (h : isBlankAddress address = true) :
    geocode env A address =
      ⟨(none, none), [], [.warnEmptyAddress]⟩ := by
  simp [geocode, h]

/-- Witness for C3 at a whitespace-only address. -/
theorem geocode_blank_short_circuit_witness :
    geocode envNone raisingAdapters "   " =
      ⟨(none, none), [], [.warnEmptyAddress]⟩ :=
  geocode_blank_short_circuit envNone raisingAdapters "   " (by decide)

/-- Claim C4: the registry is exactly the credentialed providers in the
canonical order locationiq, opencage, geoapify, positionstack, with
nominatim appended unconditionally as the final entry, so it is never
empty. -/
theorem buildProviders_canonical (env : Env) :
    buildProviders env =
      canonicalOrder.filter (credentialed env) ++ ["nominatim"] ∧
    (buildProviders env).getLast? = some "nominatim" ∧
    buildProviders env ≠ [] := by
  have hfilter : buildProviders env =
      canonicalOrder.filter (credentialed env) ++ ["nominatim"] := by
    cases h1 : truthy env.locationiq_key <;>
    cases h2 : truthy env.opencage_key <;>
    cases h3 : truthy env.geoapify_key <;>
    cases h4 : truthy env.positionstack_key <;>
      simp [buildProviders, canonicalOrder, credentialed, h1, h2, h3, h4]
  refine ⟨hfilter, ?_, ?_⟩
  · rw [hfilter, List.getLast?_append_cons]
    rfl
  · rw [hfilter]
    simp

/-- Claim C5: the pair returned by geocode has either both components
present or both absent, for every environment, adapter behaviour and
address — including adapters returning half-populated pairs. -/
theorem geocode_no_partial (env : Env) (A : Adapters) (address : String) :
    ((geocode env A address).res.1 = none ↔
      (geocode env A address).res.2 = none) := by
  unfold geocode
  split
  · simp
  · exact geocodeLoop_no_partial A address (address ++ ", Nigeria")
      (buildProviders env)

/-- First-success behaviour of the loop: if every provider before p
fails and p yields a populated pair, the loop returns that pair and the
invoked adapters are exactly those of the failing prefix plus p. -/
theorem geocodeLoop_first_success (A : Adapters) (address query : String)
    (pre : List String) (p : String) (post : List String) (la lo : Coord)
    (hpre : ∀ q ∈ pre,
      (geocodeWithProvider A q query).outcome.isSuccess = false)
    (hp : (geocodeWithProvider A p query).outcome =
      .returns (some la) (some lo)) :
    (geocodeLoop A address query (pre ++ p :: post)).res =
      (some la, some lo) ∧
    (geocodeLoop A address query (pre ++ p :: post)).invoked =
      pre.filter isKnownProvider ++ [p] := by
  induction pre with
  | nil =>
    rw [List.nil_append, geocodeLoop_cons_success A address query p post la lo hp]
    have hk : isKnownProvider p = true :=
      isKnownProvider_of_success A p query
        (by rw [hp]; rfl)
    have := geocodeWithProvider_known A p query hk
    simp [this.1]
  | cons q pre ih =>
    have hq := hpre q (List.mem_cons_self q pre)
    have hrec := ih (fun r hr => hpre r (List.mem_cons_of_mem q hr))
    have hinv : (geocodeWithProvider A q query).invoked =
        if isKnownProvider q then [q] else [] := by
      cases hk : isKnownProvider q with
      | true => simp [(geocodeWithProvider_known A q query hk).1]
      | false => simp [geocodeWithProvider_not_known A q query hk]
    rw [List.cons_append]
    cases ho : (geocodeWithProvider A q query).outcome with
    | raises m =>
      rw [geocodeLoop_cons_raises A address query q (pre ++ p :: post) m ho]
      refine ⟨hrec.1, ?_⟩
      rw [hinv, hrec.2, List.filter_cons]
      split <;> simp
    | returns lat lon =>
      rw [geocodeLoop_cons_continue A address query q (pre ++ p :: post)
        lat lon ho (by rw [ho] at hq; exact hq)]
      refine ⟨hrec.1, ?_⟩
      rw [hinv, hrec.2, List.filter_cons]
      split <;> simp

/-- Claim C1: for every non-blank address, geocode tries providers in
registry order and stops at the first provider whose adapter yields a
fully-populated pair, returning exactly that pair; the invoked adapters
are exactly the failing prefix followed by that provider, so no later
adapter is ever invoked and none is invoked twice. -/
theorem geocode_first_success (env : Env) (A : Adapters)
    (address : String) (pre : List String) (p : String)
    (post : List String) (la lo : Coord)
    (hblank : isBlankAddress address = false)
    (hreg : buildProviders env = pre ++ p :: post)
    (hpre : ∀ q ∈ pre,
      (geocodeWithProvider A q (address ++ ", Nigeria")).outcome.isSuccess
        = false)
    (hp : (geocodeWithProvider A p (address ++ ", Nigeria")).outcome =
      .returns (some la) (some lo)) :
    (geocode env A address).res = (some la, some lo) ∧
    (geocode env A address).invoked = pre ++ [p] := by
  have hfilter : pre.filter isKnownProvider = pre :=
    List.filter_eq_self.mpr (fun q hq =>
      mem_buildProviders_isKnown env q
        (by rw [hreg]; exact List.mem_append_left _ hq))
  have h := geocodeLoop_first_success A address (address ++ ", Nigeria")
    pre p post la lo hpre hp
  rw [hfilter] at h
  simpa [geocode, hblank, hreg] using h

/-- Witness for C1: all four credentials present, locationiq raises,
opencage resolves to (7, 4); geocode returns (7, 4) having invoked
exactly locationiq then opencage. -/
theorem geocode_first_success_witness :
    (geocode envAll fallbackAdapters "Lagos").res = (some 7, some 4) ∧
    (geocode envAll fallbackAdapters "Lagos").invoked =
      ["locationiq", "opencage"] :=
  geocode_first_success envAll fallbackAdapters "Lagos"
    ["locationiq"] "opencage" ["geoapify", "positionstack", "nominatim"]
    7 4 (by decide) (by decide) (by decide) (by decide)

/-- Claim C2: for every non-blank address, if every registry provider
either raises or yields the absent pair, geocode returns the absent
pair; the model is total, so no adapter exception escapes the call. -/
theorem geocode_all_fail (env : Env) (A : Adapters) (address : String)
    (hblank : isBlankAddress address = false)
    (hfail : ∀ p ∈ buildProviders env,
      (∃ m, (geocodeWithProvider A p (address ++ ", Nigeria")).outcome =
        .raises m) ∨
      (geocodeWithProvider A p (address ++ ", Nigeria")).outcome =
        .returns none none) :
    (geocode env A address).res = (none, none) := by
  have h : ∀ p ∈ buildProviders env,
      (geocodeWithProvider A p (address ++ ", Nigeria")).outcome.isSuccess
        = false := by
    intro p hp
    rcases hfail p hp with ⟨m, hm⟩ | hm <;>
      rw [hm] <;> rfl
  simpa [geocode, hblank] using
    geocodeLoop_all_fail A address (address ++ ", Nigeria")
      (buildProviders env) h

/-- Witness for C2: no credentials, so the registry is [nominatim],
whose adapter raises; geocode returns the absent pair. -/
theorem geocode_all_fail_witness :
    (geocode envNone raisingAdapters "Lagos").res = (none, none) :=
  geocode_all_fail envNone raisingAdapters "Lagos" (by decide)
    (fun p hp => by
      have : p = "nominatim" := by
        simpa [envNone, buildProviders, truthy] using hp
      subst this
      exact Or.inl ⟨"boom", rfl⟩)

/-- Claim C6: for every Geoapify success response whose first feature
carries a coordinate array [c0, c1], the adapter returns latitude from
index 1 and longitude from index 0, i.e. the pair (c1, c0). -/
theorem geoapify_coordinate_swap (s : Nat) (c0 c1 : Coord)
    (fs : List (List Coord)) (hs : s < 400) :
    (geocode_geoapify ⟨s, [c0, c1] :: fs⟩).2 =
      .returns (some c1) (some c0) := by
  have h429 : ¬s = 429 := by omega
  have hr : raiseForStatusFails s = false := by
    simp only [raiseForStatusFails, Bool.and_eq_false_iff,
      decide_eq_false_iff_not, Nat.not_le, Nat.not_lt]
    left
    exact hs
  simp [geocode_geoapify, h429, hr, List.get?]

/-- Witness for C6 at a literal fixture response. -/
theorem geoapify_coordinate_swap_witness :
    (geocode_geoapify ⟨200, [[3, 9]]⟩).2 =
      .returns (some 9) (some 3) :=
  geoapify_coordinate_swap 200 3 9 [] (by decide)

/-- Claim C7: each of the four credentialed HTTP adapters converts an
HTTP 429 status into the distinct rate-limit exception (never the
generic HTTPError raised by the status check that follows), and a
raising provider only advances the fallback loop to the rest of the
registry. -/
theorem http429_distinct_rate_limit :
    (∀ r : LocationIQResponse, r.status_code = 429 →
      (geocode_locationiq r).2 = .raises "Rate limit exceeded") ∧
    (∀ r : OpenCageResponse, r.status_code = 429 →
      (geocode_opencage r).2 = .raises "Rate limit exceeded") ∧
    (∀ r : GeoapifyResponse, r.status_code = 429 →
      (geocode_geoapify r).2 = .raises "Rate limit exceeded") ∧
    (∀ r : PositionstackResponse, r.status_code = 429 →
      (geocode_positionstack r).2 = .raises "Rate limit exceeded") ∧
    (∀ (A : Adapters) (address query p m : String) (rest : List String),
      (geocodeWithProvider A p query).outcome = .raises m →
      (geocodeLoop A address query (p :: rest)).res =
        (geocodeLoop A address query rest).res ∧
      (geocodeLoop A address query (p :: rest)).invoked =
        (geocodeWithProvider A p query).invoked ++
          (geocodeLoop A address query rest).invoked) := by
  refine ⟨?_, ?_, ?_, ?_, ?_⟩
  · intro r h
    simp [geocode_locationiq, h]
  · intro r h
    simp [geocode_opencage, h]
  · intro r h
    simp [geocode_geoapify, h]
  · intro r h
    simp [geocode_positionstack, h]
  · intro A address query p m rest h
    rw [geocodeLoop_cons_raises A address query p rest m h]
    exact ⟨rfl, rfl⟩

/-- Witness for C7: a literal 429 response to each adapter, and the
loop effect of a raising provider at a concrete registry. -/
theorem http429_distinct_rate_limit_witness :
    (geocode_locationiq ⟨429, []⟩).2 = .raises "Rate limit exceeded" ∧
    (geocode_opencage ⟨429, []⟩).2 = .raises "Rate limit exceeded" ∧
    (geocode_geoapify ⟨429, []⟩).2 = .raises "Rate limit exceeded" ∧
    (geocode_positionstack ⟨429, []⟩).2 = .raises "Rate limit exceeded" ∧
    ((geocodeLoop raisingAdapters "a" "a, Nigeria"
        ["locationiq", "nominatim"]).res =
      (geocodeLoop raisingAdapters "a" "a, Nigeria" ["nominatim"]).res ∧
    (geocodeLoop raisingAdapters "a" "a, Nigeria"
        ["locationiq", "nominatim"]).invoked =
      (geocodeWithProvider raisingAdapters "locationiq"
          "a, Nigeria").invoked ++
        (geocodeLoop raisingAdapters "a" "a, Nigeria"
          ["nominatim"]).invoked) :=
  ⟨http429_distinct_rate_limit.1 ⟨429, []⟩ rfl,
   http429_distinct_rate_limit.2.1 ⟨429, []⟩ rfl,
   http429_distinct_rate_limit.2.2.1 ⟨429, []⟩ rfl,
   http429_distinct_rate_limit.2.2.2.1 ⟨429, []⟩ rfl,
   http429_distinct_rate_limit.2.2.2.2 raisingAdapters "a" "a, Nigeria"
     "locationiq" "boom" ["nominatim"] rfl⟩

/-- Claim C9: the Nominatim adapter sleeps 1 time unit before its
lookup, and every provider request carries the bounded timeout of 10
time units, as recorded in each adapter effect trace. -/
theorem request_timeouts_and_throttle :
    (∀ r : LocationIQResponse, (geocode_locationiq r).1 =
      [Effect.httpGet "https://us1.locationiq.com/v1/search" 10]) ∧
    (∀ r : OpenCageResponse, (geocode_opencage r).1 =
      [Effect.httpGet "https://api.opencagedata.com/geocode/v1/json" 10]) ∧
    (∀ r : GeoapifyResponse, (geocode_geoapify r).1 =
      [Effect.httpGet "https://api.geoapify.com/v1/geocode/search" 10]) ∧
    (∀ r : PositionstackResponse, (geocode_positionstack r).1 =
      [Effect.httpGet "http://api.positionstack.com/v1/forward" 10]) ∧
    (∀ reply : NominatimReply, (geocode_nominatim reply).1 =
      [Effect.sleep 1, Effect.nominatimLookup 10]) :=
  ⟨fun _ => rfl, fun _ => rfl, fun _ => rfl, fun _ => rfl, fun _ => rfl⟩

/-- Claim C10: for every provider name outside the five known ones, the
dispatcher invokes no adapter, logs the unknown-provider error and
returns the absent pair without raising. -/
theorem dispatch_unknown_total (A : Adapters) (q p : String)
    (h : p ∉ (["locationiq", "opencage", "geoapify", "positionstack",
      "nominatim"] : List String)) :
    geocodeWithProvider A p q =
      ⟨[], .returns none none, [.errorUnknownProvider p]⟩ := by
  apply geocodeWithProvider_not_known
  simp only [List.mem_cons, List.not_mem_nil, or_false] at h
  push_neg at h
  simp [isKnownProvider, h.1, h.2.1, h.2.2.1, h.2.2.2.1, h.2.2.2.2]

/-- Witness for C10 at the unknown name bogus. -/
theorem dispatch_unknown_total_witness :
    geocodeWithProvider raisingAdapters "bogus" "a, Nigeria" =
      ⟨[], .returns none none, [.errorUnknownProvider "bogus"]⟩ :=
  dispatch_unknown_total raisingAdapters "a, Nigeria" "bogus" (by decide)

/-- Counterexample to claim C8 as stated: with no credentials the
registry is [nominatim]; its adapter returns the absent pair without
raising, yet the geocode log contains no warning naming the provider —
only the final service-level error. The warning branch runs only when
an adapter raises. -/
theorem absent_result_no_warning_counterexample :
    (geocodeWithProvider absentAdapters "nominatim"
        "Lagos, Nigeria").outcome = .returns none none ∧
    (geocode envNone absentAdapters "Lagos").log =
      [.errorAllFailed "Lagos"] ∧
    LogEntry.warnProviderFailed "nominatim" ∉
      (geocode envNone absentAdapters "Lagos").log := by
  decide

/-- Claim C8 amended: when a known provider adapter raises, the loop
logs the warning naming the provider and advances to the rest of the
registry; when it returns an absent pair without raising, the loop
advances silently, logging nothing. -/
theorem loop_failure_logging (A : Adapters) (address query p : String)
    (rest : List String)
    (hk : isKnownProvider p = true) :
    (∀ m, (geocodeWithProvider A p query).outcome = .raises m →
      geocodeLoop A address query (p :: rest) =
        ⟨(geocodeLoop A address query rest).res,
         p :: (geocodeLoop A address query rest).invoked,
         LogEntry.warnProviderFailed p ::
           (geocodeLoop A address query rest).log⟩) ∧
    ((geocodeWithProvider A p query).outcome = .returns none none →
      geocodeLoop A address query (p :: rest) =
        ⟨(geocodeLoop A address query rest).res,
         p :: (geocodeLoop A address query rest).invoked,
         (geocodeLoop A address query rest).log⟩) := by
  have hkn := geocodeWithProvider_known A p query hk
  constructor
  · intro m h
    rw [geocodeLoop_cons_raises A address query p rest m h, hkn.1, hkn.2]
    simp
  · intro h
    rw [geocodeLoop_cons_continue A address query p rest none none h rfl,
      hkn.1, hkn.2]
    simp

/-- Witness for the amended C8: a silent advance past a provider that
returned the absent pair. -/
theorem loop_failure_logging_witness :
    geocodeLoop absentAdapters "Lagos" "Lagos, Nigeria" ["nominatim"] =
      ⟨(geocodeLoop absentAdapters "Lagos" "Lagos, Nigeria" []).res,
       "nominatim" ::
         (geocodeLoop absentAdapters "Lagos" "Lagos, Nigeria" []).invoked,
       (geocodeLoop absentAdapters "Lagos" "Lagos, Nigeria" []).log⟩ :=
  (loop_failure_logging absentAdapters "Lagos" "Lagos, Nigeria"
    "nominatim" [] (by decide)).2 rfl

end MarketDetective
